import Mathlib

/-!
Verification of the ClankerCage PTY-bridge core (`src/clankercage/cli.py`,
with the `src/clanker/cli.py` variant where a claim references it).

The embedding models bytes as `Nat`, byte strings as `List Nat`, and the
OS-level nondeterminism of the relay loops (which file descriptors `select`
reports readable, what each `os.read` returns, when the child exits) as an
explicit finite schedule of events.  Each `os.write` performed by the code is
recorded in a trace field of the relay state, and the controlling terminal's
attribute structure is modelled as an opaque `Nat` value.
-/

namespace ClankerCage

/-- The result of one `os.read` call: either it returns a chunk of bytes
(possibly empty, meaning end-of-file) or it raises `OSError`. -/
inductive ReadResult where
  | ok (data : List Nat)
  | err
  deriving DecidableEq, Repr

/-- One iteration of the Startup Relay polling loop
(`run_subprocess_with_input_capture`): which fds `select` reported readable
and what reading each of them returns.  The schedule list ends when
`proc.poll()` stops returning `None` (the child exited). -/
structure Round where
  masterReadable : Bool
  masterData : ReadResult
  stdinReadable : Bool
  stdinData : ReadResult
  deriving DecidableEq, Repr

/-- One iteration of the Session Relay polling loop (`run_with_pty`):
readability and read results for the two fds, plus whether the non-blocking
`os.waitpid(pid, os.WNOHANG)` at the end of the iteration reports the child
as exited. -/
structure SRound where
  masterReadable : Bool
  masterData : ReadResult
  stdinReadable : Bool
  stdinData : ReadResult
  childExited : Bool
  deriving DecidableEq, Repr

/-- `class InputBuffer` from `clankercage/cli.py`: a byte accumulator with a
`capturing` flag.  The `threading.Lock` only serialises access; the
sequential state machine is the lock-free content. -/
structure InputBuffer where
  buffer : List Nat
  capturing : Bool
  deriving DecidableEq, Repr

/-- `InputBuffer.__init__`: empty buffer, `capturing = True`. -/
def InputBuffer.init : InputBuffer := { buffer := [], capturing := true }

/-- `InputBuffer.append`: extends the buffer only while `capturing` holds. -/
def InputBuffer.append (b : InputBuffer) (data : List Nat) : InputBuffer :=
  if b.capturing then { b with buffer := b.buffer ++ data } else b

/-- `InputBuffer.stop_and_get`: flips `capturing` off and returns the
snapshot of the accumulated bytes together with the successor state. -/
def InputBuffer.stop_and_get (b : InputBuffer) : List Nat × InputBuffer :=
  (b.buffer, { b with capturing := false })

/-- The observable state threaded through a relay run: the trace of chunks
written to the real stdout, the trace of chunks written to the PTY master
(what the child can observe on its stdin), the traces of chunks successfully
read from the PTY master and from the real stdin, the input-capture buffer,
the current terminal attribute word, and whether the master fd is open. -/
structure RelayState where
  stdoutWrites : List (List Nat)
  masterWrites : List (List Nat)
  masterReads : List (List Nat)
  stdinReads : List (List Nat)
  buf : InputBuffer
  termAttrs : Nat
  masterOpen : Bool
  deriving DecidableEq, Repr

/-- The stdin branch of one Startup Relay iteration: if stdin is readable,
read it; `OSError` breaks the loop; a non-empty chunk goes into the
`InputBuffer` (and nowhere else — it is never forwarded to the child). -/
def startupStdinStep (st : RelayState) (r : Round) : RelayState × Bool :=
  if r.stdinReadable then
    match r.stdinData with
    | .err => (st, false)
    | .ok data =>
      let st1 := { st with stdinReads := st.stdinReads ++ [data] }
      if data = [] then (st1, true)
      else ({ st1 with buf := st1.buf.append data }, true)
  else (st, true)

/-- One full Startup Relay iteration: master branch (forward child output to
the real stdout verbatim; `OSError` breaks), then the stdin branch. -/
def startupStep (st : RelayState) (r : Round) : RelayState × Bool :=
  if r.masterReadable then
    match r.masterData with
    | .err => (st, false)
    | .ok data =>
      let st1 := { st with masterReads := st.masterReads ++ [data] }
      if data = [] then startupStdinStep st1 r
      else startupStdinStep { st1 with stdoutWrites := st1.stdoutWrites ++ [data] } r
  else startupStdinStep st r

/-- The `while proc.poll() is None` loop of the Startup Relay: runs one
iteration per scheduled round, stopping early when an iteration breaks. -/
def startupLoop : RelayState → List Round → RelayState
  | st, [] => st
  | st, r :: rs =>
    let p := startupStep st r
    if p.2 then startupLoop p.1 rs else p.1

/-- One iteration of the drain loop shared (textually duplicated) by both
relays: `select` on the master alone; not readable breaks, a read error
breaks, an empty read breaks, a non-empty chunk is forwarded to stdout. -/
def drainStep (st : RelayState) (o : Option ReadResult) : RelayState × Bool :=
  match o with
  | none => (st, false)
  | some .err => (st, false)
  | some (.ok data) =>
    let st1 := { st with masterReads := st.masterReads ++ [data] }
    if data = [] then (st1, false)
    else ({ st1 with stdoutWrites := st1.stdoutWrites ++ [data] }, true)

/-- The `while True` drain loop over its schedule of `select`/read results. -/
def drainLoop : RelayState → List (Option ReadResult) → RelayState
  | st, [] => st
  | st, o :: os =>
    let p := drainStep st o
    if p.2 then drainLoop p.1 os else p.1

/-- End of one Session Relay iteration: the non-blocking `waitpid` check;
when the child has exited, drain the remaining PTY output and break. -/
def sessionCheckChild (st : RelayState) (r : SRound)
    (drains : List (Option ReadResult)) : RelayState × Bool :=
  if r.childExited then (drainLoop st drains, false) else (st, true)

/-- The stdin branch of one Session Relay iteration: a read error breaks;
a non-empty chunk is forwarded (live) to the PTY master. -/
def sessionStdinStep (st : RelayState) (r : SRound)
    (drains : List (Option ReadResult)) : RelayState × Bool :=
  if r.stdinReadable then
    match r.stdinData with
    | .err => (st, false)
    | .ok data =>
      let st1 := { st with stdinReads := st.stdinReads ++ [data] }
      if data = [] then sessionCheckChild st1 r drains
      else sessionCheckChild { st1 with masterWrites := st1.masterWrites ++ [data] } r drains
  else sessionCheckChild st r drains

/-- One full Session Relay iteration: master branch (empty read = EOF breaks,
error breaks, data is forwarded verbatim to the real stdout), then the stdin
branch, then the child-exit check. -/
def sessionStep (st : RelayState) (r : SRound)
    (drains : List (Option ReadResult)) : RelayState × Bool :=
  if r.masterReadable then
    match r.masterData with
    | .err => (st, false)
    | .ok data =>
      let st1 := { st with masterReads := st.masterReads ++ [data] }
      if data = [] then (st1, false)
      else sessionStdinStep { st1 with stdoutWrites := st1.stdoutWrites ++ [data] } r drains
  else sessionStdinStep st r drains

/-- The `while True` loop of the Session Relay over its schedule. -/
def sessionLoop : RelayState → List SRound → List (Option ReadResult) → RelayState
  | st, [], _ => st
  | st, r :: rs, drains =>
    let p := sessionStep st r drains
    if p.2 then sessionLoop p.1 rs drains else p.1

/-- `run_subprocess_with_input_capture` (the Startup Relay).  Parameters:
`oldSettings` is the terminal attribute word `termios.tcgetattr` returns at
entry, `rawMode` the word `tty.setraw` installs, `buf0` the caller-supplied
`InputBuffer`, `rounds`/`drains` the I/O schedule, and `returncode` the
child's `Popen.returncode` once the poll loop ends.  The `finally` block
closes the master fd and restores `oldSettings` before the return-code check;
a nonzero return code raises `CalledProcessError` (modelled as
`Except.error`), otherwise the function returns `input_buffer.stop_and_get()`. -/
def run_subprocess_with_input_capture (oldSettings rawMode : Nat)
    (buf0 : InputBuffer) (rounds : List Round)
    (drains : List (Option ReadResult)) (returncode : Int) :
    RelayState × Except Int (List Nat) :=
  let st0 : RelayState :=
    { stdoutWrites := [], masterWrites := [], masterReads := [], stdinReads := [],
      buf := buf0, termAttrs := rawMode, masterOpen := true }
  let st1 := startupLoop st0 rounds
  let st2 := drainLoop st1 drains
  let st3 := { st2 with masterOpen := false, termAttrs := oldSettings }
  if returncode ≠ 0 then (st3, Except.error returncode)
  else
    let g := st3.buf.stop_and_get
    ({ st3 with buf := g.2 }, Except.ok g.1)

/-- `os.WIFEXITED` on a `waitpid` status word: low seven bits are zero. -/
def WIFEXITED (status : Nat) : Bool := status % 128 == 0

/-- `os.WEXITSTATUS`: bits 8..15 of the status word. -/
def WEXITSTATUS (status : Nat) : Nat := (status / 256) % 256

/-- `os.WIFSIGNALED` (glibc formula): `((status & 0x7f) + 1) >> 1` nonzero. -/
def WIFSIGNALED (status : Nat) : Bool := (status % 128 + 1) / 2 != 0

/-- `os.WTERMSIG`: the low seven bits of the status word. -/
def WTERMSIG (status : Nat) : Nat := status % 128

/-- `run_with_pty` (the Session Relay).  `isatty` is `sys.stdin.isatty()`;
`oldSettings` is the ambient terminal attribute word (saved only when
`isatty`), `rawMode` the raw-mode word, `buffered_input` the startup capture
to inject, `rounds`/`drains` the I/O schedule, and `status` the word the
final blocking `os.waitpid(pid, 0)` reports.  The buffered input is written
to the PTY master before the loop starts; the `finally` block closes the
master fd and restores the saved settings when they were saved; the returned
code is `WEXITSTATUS status` for a normal exit and the sentinel `1`
otherwise. -/
def run_with_pty (isatty : Bool) (oldSettings rawMode : Nat)
    (buffered_input : List Nat) (rounds : List SRound)
    (drains : List (Option ReadResult)) (status : Nat) :
    RelayState × Nat :=
  let old : Option Nat := if isatty then some oldSettings else none
  let st0 : RelayState :=
    { stdoutWrites := [],
      masterWrites := if buffered_input = [] then [] else [buffered_input],
      masterReads := [], stdinReads := [], buf := InputBuffer.init,
      termAttrs := if isatty then rawMode else oldSettings, masterOpen := true }
  let st1 := sessionLoop st0 rounds drains
  let st2 := { st1 with masterOpen := false, termAttrs := old.getD st1.termAttrs }
  (st2, if WIFEXITED status then WEXITSTATUS status else 1)

/-- The interactive (`sys.stdin.isatty()`) path of `run_devcontainer`: run
the Startup Relay on a fresh `InputBuffer`; a raised `CalledProcessError`
propagates (the Session Relay is never entered); otherwise the captured
bytes are injected into the Session Relay and its exit code becomes the
process exit status via `sys.exit`. -/
def run_devcontainer_tty (oldSettings rawMode : Nat)
    (sRounds : List Round) (sDrains : List (Option ReadResult))
    (returncode : Int) (mRounds : List SRound)
    (mDrains : List (Option ReadResult)) (status : Nat) :
    RelayState × Except Int (RelayState × Nat) :=
  let r := run_subprocess_with_input_capture oldSettings rawMode
    InputBuffer.init sRounds sDrains returncode
  match r.2 with
  | .error e => (r.1, .error e)
  | .ok buffered =>
    (r.1, .ok (run_with_pty true oldSettings rawMode buffered mRounds mDrains status))

/-- Lowercase hex digit for a value below 16, as Python's `%x` renders it. -/
def hexDigitChar (n : Nat) : Char :=
  if n < 10 then Char.ofNat (48 + n) else Char.ofNat (87 + n)

/-- Fixed-width big-endian lowercase hex rendering of a natural number. -/
def toHexFixed : Nat → Nat → List Char
  | 0, _ => []
  | w + 1, v => toHexFixed w (v / 16) ++ [hexDigitChar (v % 16)]

/-- `uuid.uuid4().hex` for the 128-bit value `u`: 32 lowercase hex digits. -/
def uuid4_hex (u : Nat) : String := String.mk (toHexFixed 32 (u % 2 ^ 128))

/-- `uuid.uuid4().hex[:12]` as used by `main` (and `run_devcontainer`) to
form the instance identifier: only the first 12 hex digits are kept. -/
def instance_id (u : Nat) : String := String.mk ((uuid4_hex u).data.take 12)

/-- `get_workspace_dir` from `clankercage/cli.py`, with filesystem paths
modelled as component lists and `Path.home()` as the parameter `home`:
`Path.home() / ".cache" / "clankercage" / f"workspace-{instance_id}"`. -/
def get_workspace_dir (home : List String) (iid : String) : List String :=
  home ++ [".cache", "clankercage", "workspace-" ++ iid]

/-- A path `p` lies under directory `dir` when `dir` is a leading run of its
components. -/
def isUnder (dir p : List String) : Prop := ∃ rest, p = dir ++ rest

/-- The character class of Python's `shlex.quote` safe characters:
ASCII alphanumerics, underscore, and the punctuation at-sign, percent,
plus, equals, colon, comma, dot, slash, dash. -/
def shlexSafeChar (c : Char) : Bool :=
  (48 ≤ c.toNat && c.toNat ≤ 57) || (65 ≤ c.toNat && c.toNat ≤ 90) ||
  (97 ≤ c.toNat && c.toNat ≤ 122) || c = '_' || c = '@' || c = '%' ||
  c = '+' || c = '=' || c = ':' || c = ',' || c = '.' || c = '/' || c = '-'

/-- The per-character step of `shlex.quote`'s single-quote escaping. -/
def shlexEscapeChar (c : Char) : List Char :=
  if c.toNat = 39 then String.data "\x27\"\x27\"\x27" else [c]

/-- Python's `shlex.quote`. -/
def shlex_quote (s : String) : String :=
  if s.isEmpty then "\x27\x27"
  else if s.data.all shlexSafeChar then s
  else "\x27" ++ String.mk ((s.data.map shlexEscapeChar).flatten) ++ "\x27"

/-- Python truthiness of an optional string argument (`None` and the empty
string are both falsy). -/
def truthy : Option String → Bool
  | none => false
  | some s => !s.isEmpty

/-- `pathlib.Path(p).name`: the final path component. -/
def pathName (p : String) : String := (p.splitOn "/").getLastD ""

/-- Python `"sep".join` specialised to the separator `" && "` used for
`postStartCommand`. -/
def joinAnd : List String → String
  | [] => ""
  | [c] => c
  | c :: rest => c ++ " && " ++ joinAnd rest

/-- Python `s.replace(old, new)` (replace every occurrence). -/
def pyReplace (s old new : String) : String :=
  String.intercalate new (s.splitOn old)

/-- Python `pat in s` on strings. -/
def containsSub (s pat : String) : Bool := (s.splitOn pat).length != 1

/-- The devcontainer config dictionary, restricted to the keys
`modify_config` reads or writes; all other keys pass through untouched and
are not modelled. -/
structure Config where
  image : Option String
  build : Option (String × String)
  workspaceMount : Option String
  mounts : Option (List String)
  runArgs : Option (List String)
  postStartCommand : Option String
  deriving DecidableEq, Repr

/-- The argparse namespace fields `modify_config` consults (identical field
set in both CLI variants). -/
structure Args where
  ssh_key_file : Option String
  git_user_name : Option String
  git_user_email : Option String
  gh_token : Option String
  gpg_key_id : Option String
  build : Bool
  deriving DecidableEq, Repr

/-- The first entry of every generated `postStartCommand`. -/
def firewallCmd : String := "sudo /usr/local/bin/init-firewall.sh"

end ClankerCage

namespace ClankerCage.cage

/-- The `commands` list built at the end of `clankercage.cli.modify_config`:
the firewall initialisation first, then the optional git/gpg/gh commands,
each quoted with `shlex.quote`. -/
def buildCommands (args : Args) : List String :=
  firewallCmd ::
  ((if truthy args.git_user_name then
      ["git config --global user.name " ++ shlex_quote (args.git_user_name.getD "")]
    else [])
  ++ (if truthy args.git_user_email then
      ["git config --global user.email " ++ shlex_quote (args.git_user_email.getD "")]
    else [])
  ++ (if truthy args.gpg_key_id then
      ["git config --global user.signingkey " ++ shlex_quote (args.gpg_key_id.getD ""),
       "git config --global commit.gpgsign true",
       "git config --global gpg.program gpg",
       "gpg-connect-agent /bye >/dev/null 2>&1 || true"]
    else [])
  ++ (if truthy args.gh_token then
      ["echo " ++ shlex_quote (args.gh_token.getD "") ++ " | gh auth login --with-token"]
    else []))

/-- `modify_config` from `clankercage/cli.py`.  `Path.resolve()` is modelled
as the identity on the path string (no filesystem), and `generate_ssh_config`
by the path `runtime_dir/ssh_config` it returns. -/
def modify_config (config : Config) (args : Args) (runtime_dir : String)
    (devcontainer_dir : Option String) (project_dir : Option String) : Config :=
  let config := if args.build && devcontainer_dir.isSome then
      { config with image := none, build := some ("Dockerfile", ".") }
    else config
  let config := match project_dir with
    | some p =>
      let wm := "source=" ++ p ++ ",target=/workspace,type=bind,consistency=delegated"
      { config with workspaceMount := some wm }
    | none => config
  let config := match config.mounts with
    | some ms =>
      let ms2 := ms.map (fun m =>
        if containsSub m "claude-code-config" then
          pyReplace m
            "source=claude-code-config-$\x7bdevcontainerId\x7d,target=/home/node/.claude,type=volume"
            "source=$\x7blocalEnv:HOME\x7d/.claude,target=/home/node/.claude,type=bind,readonly"
        else m)
      { config with mounts := some ms2 }
    | none => config
  let config := match config.mounts with
    | some ms =>
      let ms2 := ms.filter (fun m => !containsSub m ".ssh/" && !containsSub m ".gnupg")
      { config with mounts := some ms2 }
    | none => config
  let config := if truthy args.ssh_key_file then
      let ssh_key_path := args.ssh_key_file.getD ""
      let ssh_key_name := pathName ssh_key_path
      let ssh_config_path := runtime_dir ++ "/ssh_config"
      let ms := config.mounts.getD []
      let ms2 := ms
        ++ ["source=" ++ ssh_key_path ++ ",target=/home/node/.ssh/" ++ ssh_key_name
              ++ ",type=bind,readonly",
            "source=" ++ ssh_config_path ++ ",target=/home/node/.ssh/config,type=bind,readonly"]
      { config with mounts := some ms2 }
    else config
  let config := if truthy args.gpg_key_id then
      let ms := config.mounts.getD []
      let ms2 := ms
        ++ ["source=$\x7blocalEnv:HOME\x7d/.gnupg,target=/home/node/.gnupg,type=bind,readonly"]
      { config with mounts := some ms2 }
    else config
  { config with postStartCommand := some (joinAnd (buildCommands args)) }

end ClankerCage.cage

namespace ClankerCage.clanker

/-- The `commands` list built at the end of `clanker.cli.modify_config`:
the firewall initialisation first, then the optional commands, with naive
single-quote interpolation instead of `shlex.quote`. -/
def buildCommands (args : Args) : List String :=
  firewallCmd ::
  ((if truthy args.git_user_name then
      ["git config --global user.name \x27" ++ args.git_user_name.getD "" ++ "\x27"]
    else [])
  ++ (if truthy args.git_user_email then
      ["git config --global user.email \x27" ++ args.git_user_email.getD "" ++ "\x27"]
    else [])
  ++ (if truthy args.gpg_key_id then
      ["git config --global user.signingkey \x27" ++ args.gpg_key_id.getD "" ++ "\x27",
       "git config --global commit.gpgsign true",
       "git config --global gpg.program gpg",
       "gpg-connect-agent /bye >/dev/null 2>&1 || true"]
    else [])
  ++ (if truthy args.gh_token then
      ["echo \x27" ++ args.gh_token.getD "" ++ "\x27 | gh auth login --with-token"]
    else []))

/-- `modify_config` from `clanker/cli.py`.  `docker_gid` stands for the
result of `get_docker_socket_gid()` (an OS query); path resolution is
modelled as in the clankercage variant. -/
def modify_config (config : Config) (args : Args) (runtime_dir : String)
    (docker_gid : Option String) (devcontainer_dir : Option String)
    (project_dir : Option String) : Config :=
  let config := if args.build && devcontainer_dir.isSome then
      { config with image := none, build := some ("Dockerfile", ".") }
    else config
  let config := match project_dir with
    | some p =>
      let wm := "source=" ++ p ++ ",target=/workspace,type=bind,consistency=delegated"
      { config with workspaceMount := some wm }
    | none => config
  let config := match config.mounts with
    | some ms =>
      let ms2 := ms.map (fun m =>
        if containsSub m "claude-code-config" then
          pyReplace m
            "source=claude-code-config-$\x7bdevcontainerId\x7d,target=/home/node/.claude,type=volume"
            "source=$\x7blocalEnv:HOME\x7d/.claude,target=/home/node/.claude,type=bind"
        else m)
      { config with mounts := some ms2 }
    | none => config
  let config := match config.mounts with
    | some ms =>
      let ms2 := ms.filter (fun m => !containsSub m ".ssh/" && !containsSub m ".gnupg")
      { config with mounts := some ms2 }
    | none => config
  let config := if truthy args.ssh_key_file then
      let ssh_key_path := args.ssh_key_file.getD ""
      let ssh_key_name := pathName ssh_key_path
      let ssh_config_path := runtime_dir ++ "/ssh_config"
      let ms := config.mounts.getD []
      let ms2 := ms
        ++ ["source=" ++ ssh_key_path ++ ",target=/home/node/.ssh/" ++ ssh_key_name
              ++ ",type=bind,readonly",
            "source=" ++ ssh_config_path ++ ",target=/home/node/.ssh/config,type=bind,readonly"]
      { config with mounts := some ms2 }
    else config
  let config := if truthy args.gpg_key_id then
      let ms := config.mounts.getD []
      let ms2 := ms
        ++ ["source=$\x7blocalEnv:HOME\x7d/.gnupg,target=/home/node/.gnupg,type=bind"]
      { config with mounts := some ms2 }
    else config
  let config := if truthy docker_gid then
      let gid := docker_gid.getD ""
      let ra := config.runArgs.getD []
      let config := { config with runArgs := some ra }
      if ra.contains "--group-add" then config
      else { config with runArgs := some (ra ++ ["--group-add", gid]) }
    else config
  { config with postStartCommand := some (joinAnd (buildCommands args)) }

end ClankerCage.clanker

namespace ClankerCage

theorem foldl_append_capturing (chunks : List (List Nat)) :
    ∀ b : InputBuffer, b.capturing = true →
      (chunks.foldl InputBuffer.append b).capturing = true ∧
      (chunks.foldl InputBuffer.append b).buffer = b.buffer ++ chunks.flatten := by
  induction chunks with
  | nil => intro b h; simp [h]
  | cons c cs ih =>
    intro b h
    have h1 : (InputBuffer.append b c).capturing = true := by
      simp [InputBuffer.append, h]
    have h2 : (InputBuffer.append b c).buffer = b.buffer ++ c := by
      simp [InputBuffer.append, h]
    obtain ⟨g1, g2⟩ := ih (InputBuffer.append b c) h1
    refine ⟨by simpa using g1, ?_⟩
    simp only [List.foldl_cons]
    calc (List.foldl InputBuffer.append (InputBuffer.append b c) cs).buffer
        = (InputBuffer.append b c).buffer ++ cs.flatten := g2
      _ = b.buffer ++ c ++ cs.flatten := by rw [h2]
      _ = b.buffer ++ (c :: cs).flatten := by simp

theorem append_of_not_capturing (b : InputBuffer) (d : List Nat)
    (h : b.capturing = false) : b.append d = b := by
  simp [InputBuffer.append, h]

theorem foldl_append_frozen (mid : List (List Nat)) :
    ∀ b : InputBuffer, b.capturing = false →
      mid.foldl InputBuffer.append b = b := by
  induction mid with
  | nil => intro b _; rfl
  | cons c cs ih =>
    intro b h
    simp only [List.foldl_cons, append_of_not_capturing b c h]
    exact ih b h

/-- Claim C2: appends made while capturing accumulate in order, so
`stop_and_get` returns the exact concatenation of the appended chunks; an
append performed after `stop_and_get` leaves the buffer state unchanged and
a repeated `stop_and_get` still returns the original snapshot. -/
theorem C2_buffer_ordering (chunks : List (List Nat)) (d : List Nat) :
    ((chunks.foldl InputBuffer.append InputBuffer.init).stop_and_get).1 = chunks.flatten
  ∧ ((chunks.foldl InputBuffer.append InputBuffer.init).stop_and_get).2.append d
      = ((chunks.foldl InputBuffer.append InputBuffer.init).stop_and_get).2
  ∧ ((((chunks.foldl InputBuffer.append InputBuffer.init).stop_and_get).2.append d).stop_and_get).1
      = ((chunks.foldl InputBuffer.append InputBuffer.init).stop_and_get).1 := by
  obtain ⟨hc, hb⟩ := foldl_append_capturing chunks InputBuffer.init rfl
  refine ⟨?_, ?_, ?_⟩
  · simpa [InputBuffer.stop_and_get, InputBuffer.init] using hb
  · exact append_of_not_capturing _ d (by simp [InputBuffer.stop_and_get])
  · rw [append_of_not_capturing _ d (by simp [InputBuffer.stop_and_get])]
    simp [InputBuffer.stop_and_get]

/-- Claim C9: `stop_and_get` is idempotent — after a first call, any number
of interleaved `append` calls later, a second call returns the same bytes. -/
theorem C9_stop_and_get_idempotent (b : InputBuffer) (mid : List (List Nat)) :
    ((mid.foldl InputBuffer.append (b.stop_and_get).2).stop_and_get).1
      = (b.stop_and_get).1 := by
  rw [foldl_append_frozen mid _ (by simp [InputBuffer.stop_and_get])]
  simp [InputBuffer.stop_and_get]

theorem drainLoop_fixed (ds : List (Option ReadResult)) :
    ∀ st : RelayState, (drainLoop st ds).masterWrites = st.masterWrites
      ∧ (drainLoop st ds).stdinReads = st.stdinReads
      ∧ (drainLoop st ds).buf = st.buf
      ∧ (drainLoop st ds).termAttrs = st.termAttrs
      ∧ (drainLoop st ds).masterOpen = st.masterOpen := by
  induction ds with
  | nil => intro st; exact ⟨rfl, rfl, rfl, rfl, rfl⟩
  | cons o os ih =>
    intro st
    match o with
    | none => simp [drainLoop, drainStep]
    | some .err => simp [drainLoop, drainStep]
    | some (.ok data) =>
      by_cases hd : data = []
      · simp [drainLoop, drainStep, hd]
      · have := ih { st with masterReads := st.masterReads ++ [data],
                             stdoutWrites := st.stdoutWrites ++ [data] }
        simpa [drainLoop, drainStep, hd] using this

theorem drainLoop_flatten (ds : List (Option ReadResult)) :
    ∀ st : RelayState, st.stdoutWrites.flatten = st.masterReads.flatten →
      (drainLoop st ds).stdoutWrites.flatten = (drainLoop st ds).masterReads.flatten := by
  induction ds with
  | nil => intro st h; exact h
  | cons o os ih =>
    intro st h
    match o with
    | none => simpa [drainLoop, drainStep] using h
    | some .err => simpa [drainLoop, drainStep] using h
    | some (.ok data) =>
      by_cases hd : data = []
      · simp [drainLoop, drainStep, hd, h]
      · have := ih { st with masterReads := st.masterReads ++ [data],
                             stdoutWrites := st.stdoutWrites ++ [data] }
          (by simp [h])
        simpa [drainLoop, drainStep, hd] using this

end ClankerCage

namespace ClankerCage

theorem startupStdinStep_capture (st : RelayState) (r : Round)
    (h1 : st.masterWrites = []) (h2 : st.buf.capturing = true)
    (h3 : st.buf.buffer = st.stdinReads.flatten) :
    (startupStdinStep st r).1.masterWrites = []
    ∧ (startupStdinStep st r).1.buf.capturing = true
    ∧ (startupStdinStep st r).1.buf.buffer = (startupStdinStep st r).1.stdinReads.flatten := by
  unfold startupStdinStep
  by_cases hr : r.stdinReadable
  · cases hsd : r.stdinData with
    | err => simp [hr, hsd, h1, h2, h3]
    | ok data =>
      by_cases hd : data = []
      · simp [hr, hsd, hd, h1, h2, h3]
      · simp [hr, hsd, hd, h1, h2, h3, InputBuffer.append]
  · simp [hr, h1, h2, h3]

theorem startupStep_capture (st : RelayState) (r : Round)
    (h1 : st.masterWrites = []) (h2 : st.buf.capturing = true)
    (h3 : st.buf.buffer = st.stdinReads.flatten) :
    (startupStep st r).1.masterWrites = []
    ∧ (startupStep st r).1.buf.capturing = true
    ∧ (startupStep st r).1.buf.buffer = (startupStep st r).1.stdinReads.flatten := by
  unfold startupStep
  by_cases hm : r.masterReadable
  · cases hmd : r.masterData with
    | err => simp [hm, hmd, h1, h2, h3]
    | ok data =>
      by_cases hd : data = []
      · have := startupStdinStep_capture
          { st with masterReads := st.masterReads ++ [data] } r
          (by simp [h1]) (by simp [h2]) (by simp [h3])
        simpa [hm, hmd, hd] using this
      · have := startupStdinStep_capture
          { st with masterReads := st.masterReads ++ [data],
                    stdoutWrites := st.stdoutWrites ++ [data] } r
          (by simp [h1]) (by simp [h2]) (by simp [h3])
        simpa [hm, hmd, hd] using this
  · simpa [hm] using startupStdinStep_capture st r h1 h2 h3

theorem startupLoop_capture (rounds : List Round) :
    ∀ st : RelayState, st.masterWrites = [] → st.buf.capturing = true →
      st.buf.buffer = st.stdinReads.flatten →
      (startupLoop st rounds).masterWrites = []
      ∧ (startupLoop st rounds).buf.capturing = true
      ∧ (startupLoop st rounds).buf.buffer = (startupLoop st rounds).stdinReads.flatten := by
  induction rounds with
  | nil => intro st h1 h2 h3; exact ⟨h1, h2, h3⟩
  | cons r rs ih =>
    intro st h1 h2 h3
    obtain ⟨g1, g2, g3⟩ := startupStep_capture st r h1 h2 h3
    by_cases hc : (startupStep st r).2
    · simpa [startupLoop, hc] using ih _ g1 g2 g3
    · simpa [startupLoop, hc] using ⟨g1, g2, g3⟩

theorem startupStdinStep_flatten (st : RelayState) (r : Round)
    (h : st.stdoutWrites.flatten = st.masterReads.flatten) :
    (startupStdinStep st r).1.stdoutWrites.flatten
      = (startupStdinStep st r).1.masterReads.flatten := by
  unfold startupStdinStep
  by_cases hr : r.stdinReadable
  · cases hsd : r.stdinData with
    | err => simp [hr, hsd, h]
    | ok data =>
      by_cases hd : data = []
      · simp [hr, hsd, hd, h]
      · simp [hr, hsd, hd, h]
  · simp [hr, h]

theorem startupStep_flatten (st : RelayState) (r : Round)
    (h : st.stdoutWrites.flatten = st.masterReads.flatten) :
    (startupStep st r).1.stdoutWrites.flatten
      = (startupStep st r).1.masterReads.flatten := by
  unfold startupStep
  by_cases hm : r.masterReadable
  · cases hmd : r.masterData with
    | err => simp [hm, hmd, h]
    | ok data =>
      by_cases hd : data = []
      · have := startupStdinStep_flatten
          { st with masterReads := st.masterReads ++ [data] } r (by simp [h, hd])
        simpa [hm, hmd, hd] using this
      · have := startupStdinStep_flatten
          { st with masterReads := st.masterReads ++ [data],
                    stdoutWrites := st.stdoutWrites ++ [data] } r (by simp [h])
        simpa [hm, hmd, hd] using this
  · simpa [hm] using startupStdinStep_flatten st r h

theorem startupLoop_flatten (rounds : List Round) :
    ∀ st : RelayState, st.stdoutWrites.flatten = st.masterReads.flatten →
      (startupLoop st rounds).stdoutWrites.flatten
        = (startupLoop st rounds).masterReads.flatten := by
  induction rounds with
  | nil => intro st h; exact h
  | cons r rs ih =>
    intro st h
    have g := startupStep_flatten st r h
    by_cases hc : (startupStep st r).2
    · simpa [startupLoop, hc] using ih _ g
    · simpa [startupLoop, hc] using g

theorem sessionCheckChild_replay (B : List Nat) (st : RelayState) (r : SRound)
    (drains : List (Option ReadResult))
    (h : st.masterWrites.flatten = B ++ st.stdinReads.flatten) :
    (sessionCheckChild st r drains).1.masterWrites.flatten
      = B ++ (sessionCheckChild st r drains).1.stdinReads.flatten := by
  unfold sessionCheckChild
  by_cases hc : r.childExited
  · have hf := drainLoop_fixed drains st
    simp [hc, hf.1, hf.2.1, h]
  · simp [hc, h]

theorem sessionStdinStep_replay (B : List Nat) (st : RelayState) (r : SRound)
    (drains : List (Option ReadResult))
    (h : st.masterWrites.flatten = B ++ st.stdinReads.flatten) :
    (sessionStdinStep st r drains).1.masterWrites.flatten
      = B ++ (sessionStdinStep st r drains).1.stdinReads.flatten := by
  unfold sessionStdinStep
  by_cases hr : r.stdinReadable
  · cases hsd : r.stdinData with
    | err => simp [hr, hsd, h]
    | ok data =>
      by_cases hd : data = []
      · have := sessionCheckChild_replay B
          { st with stdinReads := st.stdinReads ++ [data] } r drains
          (by simp [h, hd])
        simpa [hr, hsd, hd] using this
      · have := sessionCheckChild_replay B
          { st with stdinReads := st.stdinReads ++ [data],
                    masterWrites := st.masterWrites ++ [data] } r drains
          (by simp [h, List.append_assoc])
        simpa [hr, hsd, hd] using this
  · simpa [hr] using sessionCheckChild_replay B st r drains h

theorem sessionStep_replay (B : List Nat) (st : RelayState) (r : SRound)
    (drains : List (Option ReadResult))
    (h : st.masterWrites.flatten = B ++ st.stdinReads.flatten) :
    (sessionStep st r drains).1.masterWrites.flatten
      = B ++ (sessionStep st r drains).1.stdinReads.flatten := by
  unfold sessionStep
  by_cases hm : r.masterReadable
  · cases hmd : r.masterData with
    | err => simp [hm, hmd, h]
    | ok data =>
      by_cases hd : data = []
      · simp [hm, hmd, hd, h]
      · have := sessionStdinStep_replay B
          { st with masterReads := st.masterReads ++ [data],
                    stdoutWrites := st.stdoutWrites ++ [data] } r drains (by simp [h])
        simpa [hm, hmd, hd] using this
  · simpa [hm] using sessionStdinStep_replay B st r drains h

theorem sessionLoop_replay (B : List Nat) (rounds : List SRound)
    (drains : List (Option ReadResult)) :
    ∀ st : RelayState, st.masterWrites.flatten = B ++ st.stdinReads.flatten →
      (sessionLoop st rounds drains).masterWrites.flatten
        = B ++ (sessionLoop st rounds drains).stdinReads.flatten := by
  induction rounds with
  | nil => intro st h; exact h
  | cons r rs ih =>
    intro st h
    have g := sessionStep_replay B st r drains h
    by_cases hc : (sessionStep st r drains).2
    · simpa [sessionLoop, hc] using ih _ g
    · simpa [sessionLoop, hc] using g

theorem sessionCheckChild_flatten (st : RelayState) (r : SRound)
    (drains : List (Option ReadResult))
    (h : st.stdoutWrites.flatten = st.masterReads.flatten) :
    (sessionCheckChild st r drains).1.stdoutWrites.flatten
      = (sessionCheckChild st r drains).1.masterReads.flatten := by
  unfold sessionCheckChild
  by_cases hc : r.childExited
  · simpa [hc] using drainLoop_flatten drains st h
  · simp [hc, h]

theorem sessionStdinStep_flatten (st : RelayState) (r : SRound)
    (drains : List (Option ReadResult))
    (h : st.stdoutWrites.flatten = st.masterReads.flatten) :
    (sessionStdinStep st r drains).1.stdoutWrites.flatten
      = (sessionStdinStep st r drains).1.masterReads.flatten := by
  unfold sessionStdinStep
  by_cases hr : r.stdinReadable
  · cases hsd : r.stdinData with
    | err => simp [hr, hsd, h]
    | ok data =>
      by_cases hd : data = []
      · have := sessionCheckChild_flatten
          { st with stdinReads := st.stdinReads ++ [data] } r drains (by simp [h])
        simpa [hr, hsd, hd] using this
      · have := sessionCheckChild_flatten
          { st with stdinReads := st.stdinReads ++ [data],
                    masterWrites := st.masterWrites ++ [data] } r drains (by simp [h])
        simpa [hr, hsd, hd] using this
  · simpa [hr] using sessionCheckChild_flatten st r drains h

theorem sessionStep_flatten (st : RelayState) (r : SRound)
    (drains : List (Option ReadResult))
    (h : st.stdoutWrites.flatten = st.masterReads.flatten) :
    (sessionStep st r drains).1.stdoutWrites.flatten
      = (sessionStep st r drains).1.masterReads.flatten := by
  unfold sessionStep
  by_cases hm : r.masterReadable
  · cases hmd : r.masterData with
    | err => simp [hm, hmd, h]
    | ok data =>
      by_cases hd : data = []
      · simp [hm, hmd, hd, h]
      · have := sessionStdinStep_flatten
          { st with masterReads := st.masterReads ++ [data],
                    stdoutWrites := st.stdoutWrites ++ [data] } r drains (by simp [h])
        simpa [hm, hmd, hd] using this
  · simpa [hm] using sessionStdinStep_flatten st r drains h

theorem sessionLoop_flatten (rounds : List SRound)
    (drains : List (Option ReadResult)) :
    ∀ st : RelayState, st.stdoutWrites.flatten = st.masterReads.flatten →
      (sessionLoop st rounds drains).stdoutWrites.flatten
        = (sessionLoop st rounds drains).masterReads.flatten := by
  induction rounds with
  | nil => intro st h; exact h
  | cons r rs ih =>
    intro st h
    have g := sessionStep_flatten st r drains h
    by_cases hc : (sessionStep st r drains).2
    · simpa [sessionLoop, hc] using ih _ g
    · simpa [sessionLoop, hc] using g

end ClankerCage

namespace ClankerCage

theorem run_subprocess_final (oldSettings rawMode : Nat) (buf0 : InputBuffer)
    (rounds : List Round) (drains : List (Option ReadResult)) (rc : Int) :
    (run_subprocess_with_input_capture oldSettings rawMode buf0 rounds drains rc).1 =
      (let st2 := drainLoop (startupLoop
        { stdoutWrites := [], masterWrites := [], masterReads := [], stdinReads := [],
          buf := buf0, termAttrs := rawMode, masterOpen := true } rounds) drains
       { st2 with masterOpen := false, termAttrs := oldSettings,
                  buf := if rc = 0 then { st2.buf with capturing := false } else st2.buf }) := by
  by_cases hrc : rc = 0 <;>
    simp [run_subprocess_with_input_capture, InputBuffer.stop_and_get, hrc]

theorem run_with_pty_final (isatty : Bool) (oldSettings rawMode : Nat)
    (B : List Nat) (rounds : List SRound) (drains : List (Option ReadResult))
    (status : Nat) :
    run_with_pty isatty oldSettings rawMode B rounds drains status =
      (let st1 := sessionLoop
        { stdoutWrites := [], masterWrites := if B = [] then [] else [B],
          masterReads := [], stdinReads := [], buf := InputBuffer.init,
          termAttrs := if isatty then rawMode else oldSettings, masterOpen := true }
        rounds drains
       ({ st1 with masterOpen := false,
                   termAttrs := if isatty then oldSettings else st1.termAttrs },
        if WIFEXITED status then WEXITSTATUS status else 1)) := by
  by_cases h : isatty <;> simp [run_with_pty, h]

/-- Claim C1: for a terminated session-relay child, `run_with_pty` returns
`WEXITSTATUS status` when the child exited normally (hence 0 exactly on a
clean exit and the child's own code otherwise) and the fixed sentinel 1 when
the child was terminated by a signal. -/
theorem C1_exit_status_contract (isatty : Bool) (oldSettings rawMode : Nat)
    (B : List Nat) (rounds : List SRound) (drains : List (Option ReadResult))
    (status : Nat) :
    (WIFEXITED status = true →
      (run_with_pty isatty oldSettings rawMode B rounds drains status).2
        = WEXITSTATUS status)
  ∧ (WIFSIGNALED status = true →
      (run_with_pty isatty oldSettings rawMode B rounds drains status).2 = 1) := by
  constructor
  · intro h
    simp [run_with_pty, h]
  · intro h
    have hne : ¬ WIFEXITED status = true := by
      simp only [WIFSIGNALED, bne_iff_ne, ne_eq] at h
      simp only [WIFEXITED, beq_iff_eq]
      omega
    simp [run_with_pty, hne]

/-- Witness for C1 at concrete wait-status words: `0x0700` (normal exit,
code 7) yields 7, and `9` (killed by SIGKILL) yields the sentinel 1. -/
theorem C1_exit_status_contract_witness :
    (run_with_pty true 0 0 [] [] [] 1792).2 = 7
  ∧ (run_with_pty true 0 0 [] [] [] 9).2 = 1 :=
  ⟨(C1_exit_status_contract true 0 0 [] [] [] 1792).1 (by decide),
   (C1_exit_status_contract true 0 0 [] [] [] 9).2 (by decide)⟩

/-- Claim C3: in the Session Relay the bytes delivered to the PTY master are
exactly the buffered startup input followed by the live stdin chunks in read
order — replay strictly precedes all live input, with no interleaving. -/
theorem C3_replay_before_live (isatty : Bool) (oldSettings rawMode : Nat)
    (B : List Nat) (rounds : List SRound) (drains : List (Option ReadResult))
    (status : Nat) :
    ((run_with_pty isatty oldSettings rawMode B rounds drains status).1).masterWrites.flatten
      = B ++ ((run_with_pty isatty oldSettings rawMode B rounds drains status).1).stdinReads.flatten := by
  rw [run_with_pty_final]
  have h0 : (RelayState.mk [] (if B = [] then [] else [B]) [] [] InputBuffer.init
      (if isatty then rawMode else oldSettings) true).masterWrites.flatten
      = B ++ (RelayState.mk [] (if B = [] then [] else [B]) [] [] InputBuffer.init
      (if isatty then rawMode else oldSettings) true).stdinReads.flatten := by
    by_cases hb : B = [] <;> simp [hb]
  simpa using sessionLoop_replay B rounds drains _ h0

theorem run_subprocess_no_forward (oldSettings rawMode : Nat)
    (rounds : List Round) (drains : List (Option ReadResult)) (rc : Int) :
    ((run_subprocess_with_input_capture oldSettings rawMode InputBuffer.init
        rounds drains rc).1).masterWrites = []
  ∧ ((run_subprocess_with_input_capture oldSettings rawMode InputBuffer.init
        rounds drains rc).1).buf.buffer
      = ((run_subprocess_with_input_capture oldSettings rawMode InputBuffer.init
        rounds drains rc).1).stdinReads.flatten := by
  rw [run_subprocess_final]
  obtain ⟨g1, g2, g3⟩ := startupLoop_capture rounds
    { stdoutWrites := [], masterWrites := [], masterReads := [], stdinReads := [],
      buf := InputBuffer.init, termAttrs := rawMode, masterOpen := true }
    rfl rfl rfl
  have hf := drainLoop_fixed drains (startupLoop
    { stdoutWrites := [], masterWrites := [], masterReads := [], stdinReads := [],
      buf := InputBuffer.init, termAttrs := rawMode, masterOpen := true } rounds)
  by_cases hrc : rc = 0 <;>
    simp [hrc, hf.1, hf.2.1, hf.2.2.1, g1, g3]

/-- Claim C4: the Startup Relay never writes a single byte to the PTY master
(the startup child's stdin stays empty) and every chunk read from the real
stdin is accumulated, in order, in the `InputBuffer` and nowhere else. -/
theorem C4_no_forwarding_during_capture (oldSettings rawMode : Nat)
    (rounds : List Round) (drains : List (Option ReadResult)) (rc : Int) :
    ((run_subprocess_with_input_capture oldSettings rawMode InputBuffer.init
        rounds drains rc).1).masterWrites = []
  ∧ ((run_subprocess_with_input_capture oldSettings rawMode InputBuffer.init
        rounds drains rc).1).buf.buffer
      = ((run_subprocess_with_input_capture oldSettings rawMode InputBuffer.init
        rounds drains rc).1).stdinReads.flatten :=
  run_subprocess_no_forward oldSettings rawMode rounds drains rc

/-- Claim C6: both relays restore the saved terminal attributes and close
the PTY master on every exit path of the relay loop (normal child exit or
I/O error — every schedule), the Session Relay under an interactive stdin. -/
theorem C6_terminal_restoration (oldSettings rawMode : Nat) (buf0 : InputBuffer)
    (rounds1 : List Round) (drains1 : List (Option ReadResult)) (rc : Int)
    (B : List Nat) (rounds2 : List SRound) (drains2 : List (Option ReadResult))
    (status : Nat) :
    ((run_subprocess_with_input_capture oldSettings rawMode buf0 rounds1 drains1 rc).1.termAttrs
        = oldSettings
      ∧ (run_subprocess_with_input_capture oldSettings rawMode buf0 rounds1 drains1 rc).1.masterOpen
        = false)
  ∧ ((run_with_pty true oldSettings rawMode B rounds2 drains2 status).1.termAttrs
        = oldSettings
      ∧ (run_with_pty true oldSettings rawMode B rounds2 drains2 status).1.masterOpen
        = false) := by
  constructor
  · rw [run_subprocess_final]
    exact ⟨rfl, rfl⟩
  · rw [run_with_pty_final]
    simp

/-- Claim C8: in both relay loops, the concatenation of all bytes written to
the real stdout equals the concatenation of all bytes read from the PTY
master — verbatim pass-through with no loss or reordering. -/
theorem C8_passthrough_fidelity (oldSettings rawMode : Nat) (buf0 : InputBuffer)
    (rounds1 : List Round) (drains1 : List (Option ReadResult)) (rc : Int)
    (isatty : Bool) (B : List Nat) (rounds2 : List SRound)
    (drains2 : List (Option ReadResult)) (status : Nat) :
    ((run_subprocess_with_input_capture oldSettings rawMode buf0 rounds1 drains1 rc).1.stdoutWrites.flatten
      = (run_subprocess_with_input_capture oldSettings rawMode buf0 rounds1 drains1 rc).1.masterReads.flatten)
  ∧ ((run_with_pty isatty oldSettings rawMode B rounds2 drains2 status).1.stdoutWrites.flatten
      = (run_with_pty isatty oldSettings rawMode B rounds2 drains2 status).1.masterReads.flatten) := by
  constructor
  · rw [run_subprocess_final]
    have h1 := startupLoop_flatten rounds1
      { stdoutWrites := [], masterWrites := [], masterReads := [], stdinReads := [],
        buf := buf0, termAttrs := rawMode, masterOpen := true } rfl
    simpa using drainLoop_flatten drains1 _ h1
  · rw [run_with_pty_final]
    simpa using sessionLoop_flatten rounds2 drains2
      { stdoutWrites := [], masterWrites := if B = [] then [] else [B],
        masterReads := [], stdinReads := [], buf := InputBuffer.init,
        termAttrs := if isatty then rawMode else oldSettings, masterOpen := true } rfl

/-- Claim C5: when the startup child exits with a nonzero status, the
Startup Relay raises `CalledProcessError` after restoring the terminal, the
exception propagates out of `run_devcontainer` so the Session Relay is never
entered, and no buffered byte is ever written to any child's PTY master. -/
theorem C5_startup_failure_fatal (oldSettings rawMode : Nat)
    (sRounds : List Round) (sDrains : List (Option ReadResult)) (rc : Int)
    (mRounds : List SRound) (mDrains : List (Option ReadResult)) (status : Nat)
    (h : rc ≠ 0) :
    (run_devcontainer_tty oldSettings rawMode sRounds sDrains rc mRounds mDrains status).2
      = Except.error rc
  ∧ (run_subprocess_with_input_capture oldSettings rawMode InputBuffer.init
      sRounds sDrains rc).2 = Except.error rc
  ∧ (run_devcontainer_tty oldSettings rawMode sRounds sDrains rc mRounds mDrains status).1.masterWrites
      = []
  ∧ (run_devcontainer_tty oldSettings rawMode sRounds sDrains rc mRounds mDrains status).1.termAttrs
      = oldSettings := by
  have h2 : (run_subprocess_with_input_capture oldSettings rawMode InputBuffer.init
      sRounds sDrains rc).2 = Except.error rc := by
    simp [run_subprocess_with_input_capture, h]
  have h3 := (run_subprocess_no_forward oldSettings rawMode sRounds sDrains rc).1
  have h4 : (run_subprocess_with_input_capture oldSettings rawMode InputBuffer.init
      sRounds sDrains rc).1.termAttrs = oldSettings := by
    rw [run_subprocess_final]
  refine ⟨?_, h2, ?_, ?_⟩ <;> simp [run_devcontainer_tty, h2, h3, h4]

/-- Witness for C5 at the concrete nonzero return code 1 with empty I/O
schedules. -/
theorem C5_startup_failure_fatal_witness :
    (run_devcontainer_tty 0 0 [] [] 1 [] [] 0).2 = Except.error 1
  ∧ (run_subprocess_with_input_capture 0 0 InputBuffer.init [] [] 1).2 = Except.error 1
  ∧ (run_devcontainer_tty 0 0 [] [] 1 [] [] 0).1.masterWrites = []
  ∧ (run_devcontainer_tty 0 0 [] [] 1 [] [] 0).1.termAttrs = 0 :=
  C5_startup_failure_fatal 0 0 [] [] 1 [] [] 0 (by decide)

end ClankerCage

namespace ClankerCage

theorem toHexFixed_length (w : Nat) : ∀ v : Nat, (toHexFixed w v).length = w := by
  induction w with
  | zero => intro v; rfl
  | succ n ih => intro v; simp [toHexFixed, ih]

theorem string_data_append (s t : String) : (s ++ t).data = s.data ++ t.data := by
  cases s; cases t; rfl

theorem string_append_left_cancel (s t u : String) (h : s ++ t = s ++ u) : t = u := by
  have hd : s.data ++ t.data = s.data ++ u.data := by
    rw [← string_data_append, ← string_data_append, h]
  have ht : t.data = u.data := List.append_cancel_left hd
  exact congrArg String.mk ht

/-- Claim C7 counterexample: the instance identifier keeps only the first 12
hex digits (48 bits) of the 128-bit UUID, so two distinct UUID values — here
the 128-bit values 0 and 1 — yield the very same identifier.  This refutes
128-bit-strength collision resistance of the generated identifiers. -/
theorem C7_id_collision_counterexample :
    instance_id 0 = instance_id 1 ∧ (0 : Nat) ≠ 1 := by
  constructor
  · decide
  · decide

/-- Claim C7 (amended): instance identifiers are 12-hex-character (48-bit,
not 128-bit-strength) truncations of a UUID4, and whenever two invocations'
identifiers are distinct, `get_workspace_dir` maps them to distinct,
non-overlapping workspace directories: no path lies under both, so a file
in one instance's config directory is never visible under the other's. -/
theorem C7_instance_isolation_amended (home : List String) (id1 id2 : String)
    (h : id1 ≠ id2) :
    (∀ u : Nat, (instance_id u).length = 12)
  ∧ get_workspace_dir home id1 ≠ get_workspace_dir home id2
  ∧ ∀ p : List String, ¬ (isUnder (get_workspace_dir home id1) p
      ∧ isUnder (get_workspace_dir home id2) p) := by
  have len : ∀ u : Nat, (instance_id u).length = 12 := by
    intro u
    have hl := toHexFixed_length 32 (u % 2 ^ 128)
    norm_num at hl
    simp [instance_id, uuid4_hex, String.length, List.length_take, hl]
  have hw : ("workspace-" ++ id1 : String) ≠ "workspace-" ++ id2 := by
    intro he
    exact h (string_append_left_cancel _ _ _ he)
  have hdir : get_workspace_dir home id1 ≠ get_workspace_dir home id2 := by
    intro he
    unfold get_workspace_dir at he
    have hc := List.append_cancel_left he
    simp only [List.cons.injEq, and_true] at hc
    exact hw hc.2.2
  refine ⟨len, hdir, ?_⟩
  rintro p ⟨⟨r1, hp1⟩, ⟨r2, hp2⟩⟩
  have hlen : (get_workspace_dir home id1).length = (get_workspace_dir home id2).length := by
    simp [get_workspace_dir]
  have heq : get_workspace_dir home id1 ++ r1 = get_workspace_dir home id2 ++ r2 := by
    rw [← hp1, ← hp2]
  exact hdir ((List.append_inj heq hlen).1)

/-- Witness for the amended C7 at the concrete distinct identifiers "a" and
"b" with an empty home prefix. -/
theorem C7_instance_isolation_amended_witness :
    ("a" : String) ≠ "b"
  ∧ ((∀ u : Nat, (instance_id u).length = 12)
     ∧ get_workspace_dir [] "a" ≠ get_workspace_dir [] "b"
     ∧ ∀ p : List String, ¬ (isUnder (get_workspace_dir [] "a") p
         ∧ isUnder (get_workspace_dir [] "b") p)) :=
  ⟨by decide, C7_instance_isolation_amended [] "a" "b" (by decide)⟩

theorem joinAnd_head (c : String) (rest : List String) :
    joinAnd (c :: rest) = c ∨ ∃ s, joinAnd (c :: rest) = c ++ " && " ++ s := by
  cases rest with
  | nil => left; rfl
  | cons r rs => right; exact ⟨joinAnd (r :: rs), rfl⟩

/-- Claim C10: for every input configuration and argument set, both
`modify_config` variants produce a `postStartCommand` whose first
" && "-joined command is exactly the firewall initialisation, so the
firewall setup always precedes any user-derived git/gh/gpg command. -/
theorem C10_firewall_first (cfg1 : Config) (args1 : Args) (rt1 : String)
    (dev1 proj1 : Option String) (cfg2 : Config) (args2 : Args) (rt2 : String)
    (gid : Option String) (dev2 proj2 : Option String) :
    (∃ pc, (cage.modify_config cfg1 args1 rt1 dev1 proj1).postStartCommand = some pc
      ∧ (pc = firewallCmd ∨ ∃ rest, pc = firewallCmd ++ " && " ++ rest))
  ∧ (∃ pc, (clanker.modify_config cfg2 args2 rt2 gid dev2 proj2).postStartCommand = some pc
      ∧ (pc = firewallCmd ∨ ∃ rest, pc = firewallCmd ++ " && " ++ rest)) :=
  ⟨⟨joinAnd (cage.buildCommands args1), rfl, joinAnd_head firewallCmd _⟩,
   ⟨joinAnd (clanker.buildCommands args2), rfl, joinAnd_head firewallCmd _⟩⟩

end ClankerCage
